import Mathlib

/-!
Verification development for the Flex Living Reviews service.

Shallow embedding of the review normalization, approval-state, filter/sort
and aggregation pipeline of `src/backend/server.js` and
`src/frontend/src/App.js`.

Modelling conventions:
* JavaScript numbers are modelled as `ℚ` (no claim here hinges on binary
  floating point; `NaN` is modelled explicitly with `Option` where the code
  can produce it, namely date parsing and the sort comparator).
* JavaScript strings are Lean `String`s; the string helpers the code uses
  (`toLowerCase`, `includes`, `parseInt`, `parseFloat`, `toFixed(1)`) are
  given structurally recursive models so that concrete runs reduce in the
  kernel.
* `new Date(s).valueOf()` is an external primitive; it is passed in as a
  parameter `pd : String → Option ℤ` (epoch milliseconds, `none` for an
  invalid date, i.e. `NaN`).
* `Array.prototype.sort` is modelled by a stable insertion sort
  (ECMAScript requires a stable sort; `CompareArrayElements` maps a `NaN`
  comparator result to `+0`).
-/

/-- A JavaScript runtime value, as far as the claims need to distinguish
them (`typeof` checks and string-versus-number results). -/
inductive JSVal where
  | bool (b : Bool)
  | num (q : ℚ)
  | str (s : String)
  | null
  | undef
deriving DecidableEq

/-- JS `x || y` for a number-or-null `x`: `null` and `0` are falsy. -/
def jsOr (x : Option ℚ) (y : ℚ) : ℚ :=
  match x with
  | none => y
  | some v => if v = 0 then y else v

/-- JS `x || 0` for a number-or-null `x` (used by the frontend engine). -/
def jsOrZero (x : Option ℚ) : ℚ :=
  match x with
  | none => 0
  | some v => v

/-- Value of a list of decimal digit characters. -/
def digitsToNat (l : List Char) : ℕ :=
  l.foldl (fun n c => n * 10 + (c.toNat - 48)) 0

/-- Model of JS `parseInt` on the strings this UI supplies (an optional
sign followed by decimal digits); `none` models `NaN`. -/
def parseIntJS (s : String) : Option ℤ :=
  let core : List Char → Option ℕ := fun l =>
    let ds := l.takeWhile Char.isDigit
    if ds.isEmpty then none else some (digitsToNat ds)
  match s.data with
  | '-' :: rest => (core rest).map (fun n => -(n : ℤ))
  | l => (core l).map (fun n => (n : ℤ))

/-- Model of JS `parseFloat` on nonnegative fixed-notation strings. -/
def parseDecPos (l : List Char) : ℚ :=
  let intPart := l.takeWhile Char.isDigit
  let rest := l.drop intPart.length
  match rest with
  | '.' :: frac =>
    let fd := frac.takeWhile Char.isDigit
    (digitsToNat intPart : ℚ) + (digitsToNat fd : ℚ) / (10 : ℚ) ^ fd.length
  | _ => (digitsToNat intPart : ℚ)

/-- Model of JS `parseFloat` on fixed-notation strings. -/
def parseDec (s : String) : ℚ :=
  match s.data with
  | '-' :: rest => -(parseDecPos rest)
  | l => parseDecPos l

/-- JS `parseFloat(v)`: a number is first coerced to its decimal string,
which parses back to itself for the values arising here; non-numeric
inputs give `NaN`, modelled as `0` (unreachable in this code). -/
def parseFloatJS : JSVal → ℚ
  | .num q => q
  | .str s => parseDec s
  | _ => 0

/-- `Number((q).toFixed(1))`: round to one decimal place. ES `toFixed`
picks the closest `n / 10`, ties toward the larger `n`, which is exactly
`round` (= `⌊x + 1/2⌋`). -/
def numberToFixed1 (q : ℚ) : ℚ :=
  (round (q * 10) : ℚ) / 10

/-- `(q).toFixed(1)` as the decimal string JS produces. -/
def toFixed1 (q : ℚ) : String :=
  let n : ℤ := round (q * 10)
  if n < 0 then
    "-" ++ toString ((-n) / 10) ++ "." ++ toString ((-n) % 10)
  else
    toString (n / 10) ++ "." ++ toString (n % 10)

/-- JS `String.prototype.toLowerCase` (ASCII as used here). -/
def jsToLowerCase (s : String) : String :=
  ⟨s.data.map Char.toLower⟩

/-- Does `needle` occur at the head of `hay`? -/
def matchesAt : List Char → List Char → Bool
  | [], _ => true
  | _ :: _, [] => false
  | c :: cs, d :: ds => c = d && matchesAt cs ds

/-- Substring occurrence on character lists. -/
def containsSub (hay needle : List Char) : Bool :=
  match hay with
  | [] => needle.isEmpty
  | _ :: rest => matchesAt needle hay || containsSub rest needle

/-- JS `hay.includes(needle)` (the empty needle is always found). -/
def jsIncludes (hay needle : String) : Bool :=
  containsSub hay.data needle.data

/-- Stable insertion of `x` after every element `y` of the already placed
list with `le y x`. -/
def stableInsert (le : α → α → Bool) (x : α) : List α → List α
  | [] => [x]
  | y :: l => if le y x then y :: stableInsert le x l else x :: y :: l

/-- Stable sort (models the ECMAScript stable `Array.prototype.sort`):
elements are inserted left to right, an element never jumping over one it
ties with. -/
def stableSort (le : α → α → Bool) (l : List α) : List α :=
  l.foldl (fun acc x => stableInsert le x acc) []

/-! ## Approval Store (`server.js` line 24, 102, 138, 165, 245)

`let reviewApprovals = new Map()`, read as
`reviewApprovals.get(id) || false` and written as
`reviewApprovals.set(id, approved)`. -/

/-- The in-memory approval `Map`, keyed by the string form of a review id. -/
def ApprovalStore : Type := String → Option Bool

/-- The initial empty `Map`. -/
def emptyApprovals : ApprovalStore := fun _ => none

/-- `reviewApprovals.set(id, approved)` (`server.js` line 138). -/
def setApproval (store : ApprovalStore) (id : String) (approved : Bool) : ApprovalStore :=
  fun k => if k = id then some approved else store k

/-- `reviewApprovals.get(id) || false` (`server.js` line 102): the stored
value, `false` when absent (a stored `false` also reads back `false`). -/
def getApproval (store : ApprovalStore) (id : String) : Bool :=
  match store id with
  | some b => b
  | none => false

/-! ## Raw channel records and the Normalizer (`server.js` lines 27-52, 90-105) -/

/-- One entry of `reviewCategory`. -/
structure ReviewCategory where
  category : String
  rating : Option ℚ
deriving DecidableEq

/-- A raw Hostaway review record, as in the mock data and the channel API. -/
structure RawReview where
  id : ℤ
  type : String
  status : String
  rating : Option ℚ
  publicReview : String
  reviewCategory : Option (List ReviewCategory)
  submittedAt : String
  guestName : String
  listingName : String
deriving DecidableEq

/-- The fixed fallback dataset `mockReviews` (`server.js` lines 27-44). -/
def mockReviews : List RawReview :=
  [{ id := 7453
     type := "guest-to-host"
     status := "published"
     rating := none
     publicReview := "Shane and family are wonderful! Would definitely host again. The property was immaculate and they followed all house rules perfectly. Communication was excellent throughout their stay."
     reviewCategory := some
       [{ category := "cleanliness", rating := some 9 },
        { category := "location", rating := some 10 },
        { category := "amenities", rating := some 9 },
        { category := "hospitality", rating := some 10 }]
     submittedAt := "2024-11-28 16:20:12"
     guestName := "Lisa Rodriguez"
     listingName := "2B N1 A - 29 Shoreditch Heights" }]

/-- `calculateOverallRating(categories)` (`server.js` lines 47-52):
`7.5` when there are no categories, otherwise
`Number((sum of (cat.rating || 0) / length).toFixed(1))`. -/
def calculateOverallRating (categories : Option (List ReviewCategory)) : ℚ :=
  match categories with
  | none => 7.5
  | some [] => 7.5
  | some cs =>
    numberToFixed1 ((cs.map (fun cat => jsOrZero cat.rating)).sum / (cs.length : ℚ))

/-- A normalized review as produced by `GET /api/reviews/hostaway`. -/
structure NormalizedReview where
  id : ℤ
  type : String
  status : String
  rating : ℚ
  publicReview : String
  reviewCategory : List ReviewCategory
  submittedAt : String
  guestName : String
  listingName : String
  approved : Bool
  channel : String
deriving DecidableEq

/-- The per-record normalization (`server.js` lines 90-105):
`rating: review.rating || calculateOverallRating(review.reviewCategory)`,
`approved: reviewApprovals.get(review.id.toString()) || false`,
`channel: 'hostaway'`. -/
def normalizeReview (store : ApprovalStore) (review : RawReview) : NormalizedReview :=
  { id := review.id
    type := review.type
    status := review.status
    rating := jsOr review.rating (calculateOverallRating review.reviewCategory)
    publicReview := review.publicReview
    reviewCategory := review.reviewCategory.getD []
    submittedAt := review.submittedAt
    guestName := review.guestName
    listingName := review.listingName
    approved := getApproval store (toString review.id)
    channel := "hostaway" }

/-! ## Fetch endpoint (`server.js` lines 57-122) -/

/-- The JSON envelope returned by `GET /api/reviews/hostaway`. -/
structure FetchEnvelope where
  success : Bool
  data : List NormalizedReview
  total : ℕ
  source : String
  message : String
deriving DecidableEq

/-- `GET /api/reviews/hostaway` (`server.js` lines 57-122). The outbound
Hostaway call is the parameter `apiResult`: `none` models a timeout /
transport failure (the `catch` branch) or an empty `result`, `some l`
models a response whose `result` is `l`. The handler only reads the
approval store, so it is returned unchanged alongside the envelope. -/
def getReviewsHostaway (apiResult : Option (List RawReview)) (store : ApprovalStore) :
    FetchEnvelope × ApprovalStore :=
  let apiReviews : List RawReview :=
    match apiResult with
    | some l => l
    | none => []
  let reviews := if apiReviews.length > 0 then apiReviews else mockReviews
  let normalizedReviews := reviews.map (normalizeReview store)
  ({ success := true
     data := normalizedReviews
     total := normalizedReviews.length
     source := if apiReviews.length > 0 then "hostaway_api" else "mock_data"
     message := if apiReviews.length > 0 then "Data from Hostaway API"
                else "Using mock data (sandbox environment)" },
   store)

/-! ## Approval endpoint (`server.js` lines 125-156) -/

/-- The JSON body returned by `PATCH /api/reviews/:id/approval` (the 400
branch carries `error`, the success branch `message`/`reviewId`/`approved`). -/
structure PatchResult where
  success : Bool
  error : Option String
  message : Option String
  reviewId : Option String
  approved : Option Bool
deriving DecidableEq

/-- `PATCH /api/reviews/:id/approval` (`server.js` lines 125-156):
`typeof approved !== 'boolean'` is rejected with a 400 before any write;
otherwise `reviewApprovals.set(reviewId, approved)` runs with no
existence check against known reviews. -/
def patchReviewApproval (store : ApprovalStore) (id : String) (approved : JSVal) :
    PatchResult × ApprovalStore :=
  match approved with
  | .bool b =>
    ({ success := true
       error := none
       message := some ("Review " ++ (if b then "approved" else "hidden") ++ " successfully")
       reviewId := some id
       approved := some b },
     setApproval store id b)
  | _ =>
    ({ success := false
       error := some "Invalid approval status. Must be boolean."
       message := none
       reviewId := none
       approved := none },
     store)

/-! ## Statistics endpoint (`server.js` lines 159-231) -/

/-- A review as mapped at the top of the statistics handler
(`{...review, rating, approved}`, lines 162-166). -/
structure StatsReview where
  id : ℤ
  type : String
  status : String
  rating : ℚ
  publicReview : String
  reviewCategory : Option (List ReviewCategory)
  submittedAt : String
  guestName : String
  listingName : String
  approved : Bool
deriving DecidableEq

/-- The spread-and-override at `server.js` lines 162-166. -/
def statsNormalize (store : ApprovalStore) (review : RawReview) : StatsReview :=
  { id := review.id
    type := review.type
    status := review.status
    rating := jsOr review.rating (calculateOverallRating review.reviewCategory)
    publicReview := review.publicReview
    reviewCategory := review.reviewCategory
    submittedAt := review.submittedAt
    guestName := review.guestName
    listingName := review.listingName
    approved := getApproval store (toString review.id) }

/-- The `overall` object (`server.js` lines 168-173 and 202-208).
`averageRating` is built as `reviews.length > 0 ? (...).toFixed(1) : 0`
(a string in the first branch, the number `0` in the second) and then
passed through `parseFloat`; `approvalRate` stays a string-or-zero. -/
structure OverallStats where
  totalReviews : ℕ
  averageRating : JSVal
  approvedCount : ℕ
  pendingCount : ℕ
  approvalRate : JSVal
deriving DecidableEq

/-- `overall` as the statistics handler computes it over a review list. -/
def computeOverall (reviews : List StatsReview) : OverallStats :=
  let totalReviews := reviews.length
  let averageRating : JSVal :=
    if reviews.length > 0 then
      .str (toFixed1 ((reviews.map (fun r => r.rating)).sum / (reviews.length : ℚ)))
    else
      .num 0
  let approvedCount := (reviews.filter (fun r => r.approved)).length
  let pendingCount := totalReviews - approvedCount
  { totalReviews := totalReviews
    averageRating := .num (parseFloatJS averageRating)
    approvedCount := approvedCount
    pendingCount := pendingCount
    approvalRate :=
      if totalReviews > 0 then
        .str (toFixed1 ((approvedCount : ℚ) / (totalReviews : ℚ) * 100))
      else
        .num 0 }

/-- One value of the `propertyStats` object (`server.js` lines 178-196). -/
structure PropertyStat where
  total : ℕ
  approved : ℕ
  averageRating : JSVal
  totalRating : ℚ
deriving DecidableEq

/-- The freshly inserted `propertyStats[name]` (`server.js` lines 179-184). -/
def propInit : PropertyStat :=
  { total := 0, approved := 0, averageRating := .num 0, totalRating := 0 }

/-- In-place update of the entry with key `k` of a JS-object-as-list. -/
def updateAssoc (l : List (String × PropertyStat)) (k : String)
    (f : PropertyStat → PropertyStat) : List (String × PropertyStat) :=
  match l with
  | [] => []
  | (k', v) :: rest =>
    if k' = k then (k', f v) :: rest else (k', v) :: updateAssoc rest k f

/-- One iteration of the `reviews.forEach` at `server.js` lines 177-191. -/
def propertyStep (acc : List (String × PropertyStat)) (review : StatsReview) :
    List (String × PropertyStat) :=
  let acc :=
    if acc.any (fun p => p.1 = review.listingName) then acc
    else acc ++ [(review.listingName, propInit)]
  updateAssoc acc review.listingName (fun p =>
    { p with
      total := p.total + 1
      totalRating := p.totalRating + review.rating
      approved := p.approved + (if review.approved then 1 else 0) })

/-- `propertyStats` after the `forEach` and the `Object.keys` pass that
overwrites `averageRating` with `(totalRating / total).toFixed(1)`
(`server.js` lines 176-197); JS object keys iterate in insertion order. -/
def propertyStats (reviews : List StatsReview) : List (String × PropertyStat) :=
  (reviews.foldl propertyStep []).map (fun p =>
    (p.1, { p.2 with averageRating := JSVal.str (toFixed1 (p.2.totalRating / (p.2.total : ℚ))) }))

/-- The projection used for `recentActivity` (`server.js` lines 213-220). -/
structure RecentActivityItem where
  id : ℤ
  guestName : String
  listingName : String
  rating : ℚ
  submittedAt : String
  approved : Bool
deriving DecidableEq

/-- `new Date(b) - new Date(a)` with `NaN` as `none`. -/
def dateDiff (a b : Option ℤ) : Option ℚ :=
  match a, b with
  | some x, some y => some ((x : ℚ) - (y : ℚ))
  | _, _ => none

/-- ES `CompareArrayElements` on a comparator result: a `NaN` result is
replaced by `+0` (i.e. the elements tie). -/
def sortCompare (v : Option ℚ) : ℚ :=
  match v with
  | none => 0
  | some q => q

/-- `recentActivity` (`server.js` lines 210-220): sort by submission date
descending, take 5, project. -/
def recentActivity (pd : String → Option ℤ) (reviews : List StatsReview) :
    List RecentActivityItem :=
  ((stableSort (fun a b =>
      decide (sortCompare (dateDiff (pd b.submittedAt) (pd a.submittedAt)) ≤ 0)) reviews).take 5).map
    (fun review =>
      { id := review.id
        guestName := review.guestName
        listingName := review.listingName
        rating := review.rating
        submittedAt := review.submittedAt
        approved := review.approved })

/-- The `data` object of the statistics response. -/
structure StatsData where
  overall : OverallStats
  byProperty : List (String × PropertyStat)
  recentActivity : List RecentActivityItem
deriving DecidableEq

/-- `GET /api/reviews/statistics` (`server.js` lines 159-231). The handler
computes over `mockReviews` and the approval store only; `apiResult`, the
response the external channel source would give a fetch in the same
process, is exposed as an input to state the non-interference claim. -/
def getReviewsStatistics (pd : String → Option ℤ) (_apiResult : Option (List RawReview))
    (store : ApprovalStore) : StatsData :=
  let reviews := mockReviews.map (statsNormalize store)
  { overall := computeOverall reviews
    byProperty := propertyStats reviews
    recentActivity := recentActivity pd reviews }

/-! ## Frontend filter/sort engine (`App.js` lines 44-89) -/

/-- A review as the dashboard holds it. `rating` is `Option ℚ` because the
engine defends against a missing rating with `review.rating || 0`. -/
structure Review where
  id : ℤ
  guestName : String
  publicReview : String
  listingName : String
  rating : Option ℚ
  approved : Bool
  channel : String
  submittedAt : String
deriving DecidableEq

/-- The `filters` state object (`App.js` lines 11-18). Empty string means
"no filter" (JS falsy). -/
structure Filters where
  property : String
  rating : String
  status : String
  sortBy : String
  channel : String
deriving DecidableEq

/-- The `dateRange` state object; the field `endD` models `dateRange.end`
(`end` is reserved in Lean). Empty string means "no bound". -/
structure DateRange where
  start : String
  endD : String
deriving DecidableEq

/-- JS `x < n` where `n` may be `NaN` (`parseInt` failure): any comparison
with `NaN` is `false`. -/
def jsLtNaN (x : ℚ) (n : Option ℤ) : Bool :=
  match n with
  | some v => decide (x < (v : ℚ))
  | none => false

/-- JS `new Date(a) < new Date(b)`: `false` whenever either side is an
invalid date (`NaN`). -/
def jsDateLt (a b : Option ℤ) : Bool :=
  match a, b with
  | some x, some y => decide (x < y)
  | _, _ => false

/-- JS `new Date(a) > new Date(b)`: `false` whenever either side is `NaN`. -/
def jsDateGt (a b : Option ℤ) : Bool :=
  match a, b with
  | some x, some y => decide (x > y)
  | _, _ => false

/-- The filter predicate (`App.js` lines 45-70), transcribed clause by
clause; `include` starts `true`, the search clause and-accumulates, every
later clause can only set it to `false`. -/
def passesFilters (pd : String → Option ℤ) (searchTerm : String) (filters : Filters)
    (dateRange : DateRange) (review : Review) : Bool :=
  let i1 : Bool := true
  let i2 :=
    if searchTerm ≠ "" then
      i1 && (jsIncludes (jsToLowerCase review.guestName) (jsToLowerCase searchTerm)
        || jsIncludes (jsToLowerCase review.publicReview) (jsToLowerCase searchTerm)
        || jsIncludes (jsToLowerCase review.listingName) (jsToLowerCase searchTerm))
    else i1
  let i3 := if filters.property ≠ "" && review.listingName ≠ filters.property then false else i2
  let i4 :=
    if filters.rating ≠ "" && jsLtNaN (jsOrZero review.rating) (parseIntJS filters.rating) then
      false
    else i3
  let i5 := if filters.status = "approved" && !review.approved then false else i4
  let i6 := if filters.status = "pending" && review.approved then false else i5
  let i7 := if filters.channel ≠ "" && review.channel ≠ filters.channel then false else i6
  let i8 :=
    if dateRange.start ≠ "" && jsDateLt (pd review.submittedAt) (pd dateRange.start) then
      false
    else i7
  let i9 :=
    if dateRange.endD ≠ "" && jsDateGt (pd review.submittedAt) (pd dateRange.endD) then
      false
    else i8
  i9

/-- The sort comparator (`App.js` lines 73-86); `none` is a `NaN` result
(possible for the date sorts on an unparsable date). -/
def sortComparator (pd : String → Option ℤ) (sortBy : String) (a b : Review) : Option ℚ :=
  match sortBy with
  | "date-asc" => dateDiff (pd a.submittedAt) (pd b.submittedAt)
  | "date-desc" => dateDiff (pd b.submittedAt) (pd a.submittedAt)
  | "rating-asc" => some (jsOrZero a.rating - jsOrZero b.rating)
  | "rating-desc" => some (jsOrZero b.rating - jsOrZero a.rating)
  | _ => dateDiff (pd b.submittedAt) (pd a.submittedAt)

/-- The whole engine (`App.js` lines 44-89): filter, then stable sort with
the comparator (ties, including every `NaN` result, keep input order). -/
def filterAndSortReviews (pd : String → Option ℤ) (searchTerm : String) (filters : Filters)
    (dateRange : DateRange) (reviews : List Review) : List Review :=
  stableSort
    (fun a b => decide (sortCompare (sortComparator pd filters.sortBy a b) ≤ 0))
    (reviews.filter (passesFilters pd searchTerm filters dateRange))

/-- The frontend stats cards (`App.js` lines 147-156). -/
structure Stats where
  total : ℕ
  avgRating : JSVal
  approved : ℕ
  pending : ℕ
deriving DecidableEq

/-- `getStats()` (`App.js` lines 147-156): the average over the filtered
set, `'0.0'` (a string) when it is empty. -/
def getStats (filteredReviews : List Review) : Stats :=
  let total := filteredReviews.length
  let avgRating : JSVal :=
    if total > 0 then
      .str (toFixed1 ((filteredReviews.map (fun r => jsOrZero r.rating)).sum / (total : ℚ)))
    else
      .str "0.0"
  let approved := (filteredReviews.filter (fun r => r.approved)).length
  { total := total
    avgRating := avgRating
    approved := approved
    pending := total - approved }

/-! ## Concrete fixtures used by witnesses and counterexamples -/

/-- A raw record with a direct (truthy) rating. -/
def rawDirect : RawReview :=
  { id := 2, type := "guest-to-host", status := "published", rating := some 9
    publicReview := "ok", reviewCategory := none, submittedAt := "2024-01-02"
    guestName := "G", listingName := "L" }

/-- A raw record whose direct rating is the (falsy) number `0`. -/
def rawZeroRating : RawReview :=
  { id := 3, type := "guest-to-host", status := "published", rating := some 0
    publicReview := "meh", reviewCategory := none, submittedAt := "2024-01-03"
    guestName := "H", listingName := "L" }

/-- A raw record whose direct rating lies outside the 0-10 scale. -/
def rawEleven : RawReview :=
  { id := 4, type := "guest-to-host", status := "published", rating := some 11
    publicReview := "wow", reviewCategory := none, submittedAt := "2024-01-04"
    guestName := "I", listingName := "L" }

/-- A concrete date parser: exactly one string is a valid date. -/
def pdTest : String → Option ℤ :=
  fun s => if s = "2024-01-01" then some 100 else none

/-- A dashboard review whose `submittedAt` does not parse. -/
def reviewBadDate : Review :=
  { id := 1, guestName := "A", publicReview := "xx", listingName := "L1"
    rating := some 9, approved := false, channel := "hostaway", submittedAt := "not-a-date" }

/-- A dashboard review with a valid date. -/
def reviewGoodDate : Review :=
  { id := 2, guestName := "B", publicReview := "yy", listingName := "L1"
    rating := some 8, approved := false, channel := "hostaway", submittedAt := "2024-01-01" }

/-- A dashboard review whose rating is null. -/
def reviewNullRating : Review :=
  { id := 5, guestName := "C", publicReview := "zz", listingName := "L2"
    rating := none, approved := false, channel := "hostaway", submittedAt := "2024-01-01" }

/-- The initial filter state (`App.js` lines 11-18). -/
def defaultFilters : Filters :=
  { property := "", rating := "", status := "", sortBy := "date-desc", channel := "" }

/-- Filter state with a minimum-rating threshold of 2. -/
def ratingFilters : Filters :=
  { property := "", rating := "2", status := "", sortBy := "rating-asc", channel := "" }

/-- Empty date range (both bounds falsy). -/
def emptyDateRange : DateRange := { start := "", endD := "" }

/-! ## Theorems -/

/-- C2: `setApproval` followed by `getApproval` on the same id returns the
value just set (including `false`), and `getApproval` on a store where an
id was never set returns `false`. -/
theorem getApproval_setApproval (store : ApprovalStore) (id : String) (v : Bool) :
    getApproval (setApproval store id v) id = v ∧
    (∀ k : String, getApproval emptyApprovals k = false) := by
  constructor
  · simp [getApproval, setApproval]
  · intro k; rfl

/-- C4: `PATCH /api/reviews/:id/approval` fails exactly when the supplied
value is not strictly boolean, leaving the store untouched; a strictly
boolean value is stored (insert or overwrite, other keys unchanged) and
success returned unconditionally, with no existence check on the id. -/
theorem patchReviewApproval_spec (store : ApprovalStore) (id : String) (v : JSVal) :
    ((∀ b : Bool, v ≠ JSVal.bool b) →
      (patchReviewApproval store id v).1.success = false ∧
      (patchReviewApproval store id v).2 = store) ∧
    (∀ b : Bool, v = JSVal.bool b →
      (patchReviewApproval store id v).1.success = true ∧
      getApproval (patchReviewApproval store id v).2 id = b ∧
      ∀ k : String, k ≠ id → (patchReviewApproval store id v).2 k = store k) := by
  constructor
  · intro hnb
    cases v with
    | bool b => exact absurd rfl (hnb b)
    | num q => exact ⟨rfl, rfl⟩
    | str s => exact ⟨rfl, rfl⟩
    | null => exact ⟨rfl, rfl⟩
    | undef => exact ⟨rfl, rfl⟩
  · intro b hv
    subst hv
    refine ⟨rfl, ?_, ?_⟩
    · simp [patchReviewApproval, getApproval, setApproval]
    · intro k hk
      simp [patchReviewApproval, setApproval, hk]

/-- C4 witness: a non-boolean `"yes"` is rejected, a boolean is accepted,
both at the concrete id `"7453"`. -/
theorem patchReviewApproval_spot :
    (patchReviewApproval emptyApprovals "7453" (JSVal.str "yes")).1.success = false ∧
    (patchReviewApproval emptyApprovals "7453" (JSVal.bool true)).1.success = true := by
  have h1 := patchReviewApproval_spec emptyApprovals "7453" (JSVal.str "yes")
  have h2 := patchReviewApproval_spec emptyApprovals "7453" (JSVal.bool true)
  exact ⟨(h1.1 (fun b h => JSVal.noConfusion h)).1, (h2.2 true rfl).1⟩

/-- C5 amended: when the outbound channel call fails, the fetch still
returns a success envelope with the non-empty fallback dataset, but the
source tag the code uses is `"mock_data"` (versus `"hostaway_api"` for
external data), not `"fallback"`. -/
theorem getReviewsHostaway_fallback (store : ApprovalStore) :
    (getReviewsHostaway none store).1.success = true ∧
    (getReviewsHostaway none store).1.data ≠ [] ∧
    (getReviewsHostaway none store).1.source = "mock_data" := by
  refine ⟨rfl, ?_, rfl⟩
  simp [getReviewsHostaway, mockReviews]

/-- C5 counterexample: on channel failure the envelope's `source` field is
the string `"mock_data"`, not `"fallback"` as claimed. -/
theorem getReviewsHostaway_source_not_fallback :
    (getReviewsHostaway none emptyApprovals).1.source = "mock_data" ∧
    (getReviewsHostaway none emptyApprovals).1.source ≠ "fallback" := by
  constructor
  · rfl
  · decide

/-- C6 amended: over an empty review set the backend statistics
`overall.averageRating` is the number `0` (after `parseFloat`), and the
frontend `getStats` average is the string `"0.0"`; neither is an error or
`NaN`. -/
theorem averageRating_empty (reviews : List StatsReview) (fs : List Review)
    (h1 : reviews.length = 0) (h2 : fs.length = 0) :
    (computeOverall reviews).averageRating = JSVal.num 0 ∧
    (getStats fs).avgRating = JSVal.str "0.0" := by
  have hr : reviews = [] := List.length_eq_zero.mp h1
  have hf : fs = [] := List.length_eq_zero.mp h2
  subst hr; subst hf
  exact ⟨rfl, rfl⟩

/-- C6 witness: the two empty-set averages evaluated at the empty list. -/
theorem averageRating_empty_spot :
    (computeOverall []).averageRating = JSVal.num 0 ∧
    (getStats []).avgRating = JSVal.str "0.0" :=
  averageRating_empty [] [] rfl rfl

/-- C6 counterexample: over an empty review set the backend statistics
`overall.averageRating` is the number `0`, which is not the string
`"0.0"` the claim requires. -/
theorem averageRating_empty_is_number :
    (computeOverall []).averageRating = JSVal.num 0 ∧ JSVal.num 0 ≠ JSVal.str "0.0" := by
  constructor
  · rfl
  · decide

/-- C8: the fetch endpoint never mutates the approval store — for every
external outcome and store state, the store after a fetch is exactly the
store before, entry for entry. -/
theorem getReviewsHostaway_frame (apiResult : Option (List RawReview)) (store : ApprovalStore) :
    (getReviewsHostaway apiResult store).2 = store ∧
    ∀ id : String, getApproval (getReviewsHostaway apiResult store).2 id = getApproval store id :=
  ⟨rfl, fun _ => rfl⟩

/-- C9: the statistics endpoint is computed from the fixed local dataset
and the approval store only — two runs that differ solely in the external
channel response produce identical statistics. -/
theorem getReviewsStatistics_ignores_external (pd : String → Option ℤ)
    (ext1 ext2 : Option (List RawReview)) (store : ApprovalStore) :
    getReviewsStatistics pd ext1 store = getReviewsStatistics pd ext2 store := rfl

/-- JS `x || d` falls through exactly on falsy inputs (`null` or `0`). -/
theorem jsOr_falsy {x : Option ℚ} (h : x = none ∨ x = some 0) (d : ℚ) : jsOr x d = d := by
  rcases h with h | h <;> simp [jsOr, h]

/-- C1 amended: normalization keeps the record's own rating exactly when it
is truthy (non-null and non-zero); when it is null or zero and category
scores exist, the rating is their mean (missing scores counting as 0)
rounded to one decimal; when it is null or zero and there are no category
scores, the rating is the fixed neutral 7.5. -/
theorem normalizeReview_rating_rule (store : ApprovalStore) (review : RawReview) :
    (∀ v : ℚ, review.rating = some v → v ≠ 0 → (normalizeReview store review).rating = v) ∧
    ((review.rating = none ∨ review.rating = some 0) →
      ∀ cs, review.reviewCategory = some cs → cs ≠ [] →
        (normalizeReview store review).rating =
          numberToFixed1 ((cs.map (fun cat => jsOrZero cat.rating)).sum / (cs.length : ℚ))) ∧
    ((review.rating = none ∨ review.rating = some 0) →
      (review.reviewCategory = none ∨ review.reviewCategory = some []) →
      (normalizeReview store review).rating = 7.5) := by
  have hrat : (normalizeReview store review).rating =
      jsOr review.rating (calculateOverallRating review.reviewCategory) := rfl
  refine ⟨?_, ?_, ?_⟩
  · intro v hv hnz
    rw [hrat, hv]
    simp [jsOr, hnz]
  · intro hfalsy cs hcs hne
    rw [hrat, jsOr_falsy hfalsy, hcs]
    obtain ⟨c, cs', rfl⟩ := List.exists_cons_of_ne_nil hne
    rfl
  · intro hfalsy hnocat
    rw [hrat, jsOr_falsy hfalsy]
    rcases hnocat with h | h <;> rw [h] <;> rfl

/-- C1 witness: a truthy direct rating (9) survives normalization as-is. -/
theorem normalizeReview_rating_rule_spot :
    (normalizeReview emptyApprovals rawDirect).rating = 9 :=
  (normalizeReview_rating_rule emptyApprovals rawDirect).1 9 rfl (by norm_num)

/-- C1 counterexample: a record carrying the non-null rating `0` is not
normalized to its own rating — the code's `||` treats `0` as absent and
yields the neutral 7.5 instead. -/
theorem normalizeReview_zero_rating_not_kept :
    rawZeroRating.rating = some 0 ∧
    (normalizeReview emptyApprovals rawZeroRating).rating = 7.5 ∧
    (7.5 : ℚ) ≠ 0 := by
  refine ⟨rfl, ?_, by norm_num⟩
  have hrat : (normalizeReview emptyApprovals rawZeroRating).rating =
      jsOr rawZeroRating.rating (calculateOverallRating rawZeroRating.reviewCategory) := rfl
  rw [hrat, jsOr_falsy (x := rawZeroRating.rating) (Or.inr rfl)]
  rfl

/-- Bounds for a defaulted category score. -/
theorem jsOrZero_bounds (x : Option ℚ) (h : ∀ v, x = some v → 0 ≤ v ∧ v ≤ 10) :
    0 ≤ jsOrZero x ∧ jsOrZero x ≤ 10 := by
  cases x with
  | none => constructor <;> norm_num [jsOrZero]
  | some v => simpa [jsOrZero] using h v rfl

/-- Rounding to one decimal stays inside `[0, 10]`. -/
theorem numberToFixed1_bounds (q : ℚ) (h0 : 0 ≤ q) (h10 : q ≤ 10) :
    0 ≤ numberToFixed1 q ∧ numberToFixed1 q ≤ 10 := by
  have hlow : (0 : ℤ) ≤ round (q * 10) := by
    rw [round_eq]
    exact Int.le_floor.mpr (by push_cast; linarith)
  have hhigh : round (q * 10) ≤ 100 := by
    rw [round_eq]
    calc ⌊q * 10 + 1 / 2⌋ ≤ ⌊(201 / 2 : ℚ)⌋ := Int.floor_mono (by linarith)
      _ = 100 := by norm_num
  unfold numberToFixed1
  constructor
  · exact div_nonneg (by exact_mod_cast hlow) (by norm_num)
  · rw [div_le_iff₀ (by norm_num : (0 : ℚ) < 10)]
    have : (round (q * 10) : ℚ) ≤ 100 := by exact_mod_cast hhigh
    linarith

/-- The mean of a non-empty list of values in `[0, 10]` lies in `[0, 10]`. -/
theorem listAvg_bounds (l : List ℚ) (hne : l ≠ []) (h : ∀ x ∈ l, 0 ≤ x ∧ x ≤ 10) :
    0 ≤ l.sum / (l.length : ℚ) ∧ l.sum / (l.length : ℚ) ≤ 10 := by
  have hlen : (0 : ℚ) < (l.length : ℚ) := by
    have : 0 < l.length := List.length_pos.mpr hne
    exact_mod_cast this
  have hs0 : 0 ≤ l.sum := List.sum_nonneg (fun x hx => (h x hx).1)
  have hs10 : l.sum ≤ (l.length : ℚ) * 10 := by
    have := List.sum_le_card_nsmul l 10 (fun x hx => (h x hx).2)
    rwa [nsmul_eq_mul] at this
  constructor
  · exact div_nonneg hs0 hlen.le
  · rw [div_le_iff₀ hlen]; linarith

/-- The derived overall rating is always inside `[0, 10]` when every
present category score is. -/
theorem calculateOverallRating_bounds (categories : Option (List ReviewCategory))
    (h : ∀ cs, categories = some cs → ∀ c ∈ cs, ∀ v, c.rating = some v → 0 ≤ v ∧ v ≤ 10) :
    0 ≤ calculateOverallRating categories ∧ calculateOverallRating categories ≤ 10 := by
  cases categories with
  | none =>
    have hc : calculateOverallRating none = 7.5 := rfl
    rw [hc]; constructor <;> norm_num
  | some cs0 =>
    cases cs0 with
    | nil =>
      have hc : calculateOverallRating (some []) = 7.5 := rfl
      rw [hc]; constructor <;> norm_num
    | cons c cs =>
      have hmem : ∀ x ∈ (c :: cs).map (fun cat => jsOrZero cat.rating), 0 ≤ x ∧ x ≤ 10 := by
        intro x hx
        simp only [List.mem_map] at hx
        obtain ⟨cat, hcat, rfl⟩ := hx
        exact jsOrZero_bounds cat.rating (fun v hv => h _ rfl cat hcat v hv)
      have hne : (c :: cs).map (fun cat => jsOrZero cat.rating) ≠ [] := by simp
      have havg := listAvg_bounds _ hne hmem
      rw [List.length_map] at havg
      have heq : calculateOverallRating (some (c :: cs)) =
          numberToFixed1 (((c :: cs).map (fun cat => jsOrZero cat.rating)).sum /
            ((c :: cs).length : ℚ)) := rfl
      rw [heq]
      exact numberToFixed1_bounds _ havg.1 havg.2

/-- C3 amended: the normalized rating is a number in `[0, 10]` (and, being
a total `ℚ` field, never null) provided the raw record's own values are on
the 0-10 scale: any direct rating in `[0, 10]` and every present category
score in `[0, 10]`. Unchecked out-of-scale raw ratings pass through. -/
theorem normalizeReview_rating_bounds (store : ApprovalStore) (review : RawReview)
    (hdir : ∀ v, review.rating = some v → 0 ≤ v ∧ v ≤ 10)
    (hcat : ∀ cs, review.reviewCategory = some cs →
      ∀ c ∈ cs, ∀ v, c.rating = some v → 0 ≤ v ∧ v ≤ 10) :
    0 ≤ (normalizeReview store review).rating ∧ (normalizeReview store review).rating ≤ 10 := by
  have hcalc := calculateOverallRating_bounds review.reviewCategory hcat
  have hrat : (normalizeReview store review).rating =
      jsOr review.rating (calculateOverallRating review.reviewCategory) := rfl
  rw [hrat]
  cases hx : review.rating with
  | none => simpa [jsOr] using hcalc
  | some v =>
    by_cases hz : v = 0
    · subst hz; simpa [jsOr] using hcalc
    · simpa [jsOr, hz] using hdir v hx

/-- C3 witness: the bounds hold at a concrete in-scale record. -/
theorem normalizeReview_rating_bounds_spot :
    0 ≤ (normalizeReview emptyApprovals rawDirect).rating ∧
    (normalizeReview emptyApprovals rawDirect).rating ≤ 10 :=
  normalizeReview_rating_bounds emptyApprovals rawDirect
    (fun v hv => by cases hv; constructor <;> norm_num)
    (fun cs hcs => by cases hcs)

/-- C3 counterexample: a raw record with direct rating 11 normalizes to 11,
outside `[0, 10]` — the invariant does not hold regardless of raw values. -/
theorem normalizeReview_rating_out_of_range :
    (normalizeReview emptyApprovals rawEleven).rating = 11 ∧
    ¬ (normalizeReview emptyApprovals rawEleven).rating ≤ 10 := by
  have h : (normalizeReview emptyApprovals rawEleven).rating = 11 := by
    norm_num [normalizeReview, jsOr, rawEleven]
  rw [h]
  exact ⟨rfl, by norm_num⟩

/-- A JS `<` against an invalid left date is `false`. -/
theorem jsDateLt_none_left (b : Option ℤ) : jsDateLt none b = false := by
  cases b <;> rfl

/-- A JS `>` against an invalid left date is `false`. -/
theorem jsDateGt_none_left (b : Option ℤ) : jsDateGt none b = false := by
  cases b <;> rfl

/-- Date subtraction with an invalid left operand is `NaN`. -/
theorem dateDiff_none_left (b : Option ℤ) : dateDiff none b = none := by
  cases b <;> rfl

/-- Date subtraction with an invalid right operand is `NaN`. -/
theorem dateDiff_none_right (a : Option ℤ) : dateDiff a none = none := by
  cases a <;> rfl

/-- C7 amended: a review with an unparsable `submittedAt` never crashes the
(total) engine; the date-range clauses never exclude it (its filter verdict
is the one with the date range cleared, so the text/property/rating/status/
channel clauses apply unchanged), and under both date sorts its comparator
result is `NaN`, which ES treats as a tie `0` — so the stable sort keeps it
at its input-relative position rather than treating it as the earliest
possible date. -/
theorem malformedDate_engine (pd : String → Option ℤ) (searchTerm : String)
    (filters : Filters) (dateRange : DateRange) (r b : Review)
    (hmal : pd r.submittedAt = none) :
    passesFilters pd searchTerm filters dateRange r =
      passesFilters pd searchTerm filters { start := "", endD := "" } r ∧
    sortCompare (sortComparator pd "date-desc" r b) = 0 ∧
    sortCompare (sortComparator pd "date-desc" b r) = 0 ∧
    sortCompare (sortComparator pd "date-asc" r b) = 0 ∧
    sortCompare (sortComparator pd "date-asc" b r) = 0 := by
  refine ⟨?_, ?_, ?_, ?_, ?_⟩
  · simp [passesFilters, hmal, jsDateLt_none_left, jsDateGt_none_left]
  · simp [sortComparator, hmal, dateDiff_none_right, sortCompare]
  · simp [sortComparator, hmal, dateDiff_none_left, sortCompare]
  · simp [sortComparator, hmal, dateDiff_none_left, sortCompare]
  · simp [sortComparator, hmal, dateDiff_none_right, sortCompare]

/-- C7 witness: the tie behaviour at a concrete malformed-date review. -/
theorem malformedDate_engine_spot :
    passesFilters pdTest "" defaultFilters emptyDateRange reviewBadDate =
      passesFilters pdTest "" defaultFilters { start := "", endD := "" } reviewBadDate ∧
    sortCompare (sortComparator pdTest "date-desc" reviewBadDate reviewGoodDate) = 0 := by
  have h := malformedDate_engine pdTest "" defaultFilters emptyDateRange
    reviewBadDate reviewGoodDate rfl
  exact ⟨h.1, h.2.1⟩

/-- C7 counterexample: under the default newest-first sort a malformed-date
review placed first in the input stays first (`NaN` comparisons tie), while
treating it as the earliest possible date would have to place it last. -/
theorem malformedDate_not_earliest :
    filterAndSortReviews pdTest "" defaultFilters emptyDateRange
      [reviewBadDate, reviewGoodDate] = [reviewBadDate, reviewGoodDate] ∧
    filterAndSortReviews pdTest "" defaultFilters emptyDateRange
      [reviewBadDate, reviewGoodDate] ≠ [reviewGoodDate, reviewBadDate] := by
  have h1 : filterAndSortReviews pdTest "" defaultFilters emptyDateRange
      [reviewBadDate, reviewGoodDate] = [reviewBadDate, reviewGoodDate] := rfl
  refine ⟨h1, ?_⟩
  rw [h1]
  intro h
  have hid : reviewBadDate.id = reviewGoodDate.id := by
    have hhd : reviewBadDate = reviewGoodDate := by
      injection h with h' _
    exact congrArg Review.id hhd
  simp [reviewBadDate, reviewGoodDate] at hid

/-- `parseInt` of the empty (falsy) filter string is `NaN`. -/
theorem parseIntJS_empty : parseIntJS "" = none := rfl

/-- C10: a review whose `rating` is null is treated as rating `0` by the
engine: its defaulted sort/filter key is `0`, any parseable minimum-rating
filter with a positive threshold excludes it, and against any review with
nonnegative defaulted rating it compares `≤ 0` under `rating-asc` and
`≥ 0` under `rating-desc` (the lowest position on the 0-10 scale). -/
theorem nullRating_engine (pd : String → Option ℤ) (searchTerm : String)
    (filters : Filters) (dateRange : DateRange) (r : Review) (hr : r.rating = none) :
    jsOrZero r.rating = 0 ∧
    (∀ n : ℤ, parseIntJS filters.rating = some n → 0 < n →
      passesFilters pd searchTerm filters dateRange r = false) ∧
    (∀ b : Review, 0 ≤ jsOrZero b.rating →
      sortCompare (sortComparator pd "rating-asc" r b) ≤ 0 ∧
      0 ≤ sortCompare (sortComparator pd "rating-desc" r b)) := by
  have hkey : jsOrZero r.rating = 0 := by rw [hr]; rfl
  refine ⟨hkey, ?_, ?_⟩
  · intro n hn hpos
    have hne : filters.rating ≠ "" := by
      intro he
      rw [he, parseIntJS_empty] at hn
      exact Option.noConfusion hn
    have hlt : jsLtNaN (jsOrZero r.rating) (parseIntJS filters.rating) = true := by
      rw [hkey, hn]
      simp only [jsLtNaN, decide_eq_true_eq]
      exact_mod_cast hpos
    simp [passesFilters, hne, hlt]
  · intro b hb
    have h1 : sortCompare (sortComparator pd "rating-asc" r b) =
        jsOrZero r.rating - jsOrZero b.rating := rfl
    have h2 : sortCompare (sortComparator pd "rating-desc" r b) =
        jsOrZero b.rating - jsOrZero r.rating := rfl
    rw [h1, h2, hkey]
    constructor <;> linarith

/-- C10 witness: a concrete null-rating review is excluded by the `2+`
filter and ties-or-loses against a rated review under `rating-asc`. -/
theorem nullRating_engine_spot :
    passesFilters pdTest "" ratingFilters emptyDateRange reviewNullRating = false ∧
    sortCompare (sortComparator pdTest "rating-asc" reviewNullRating reviewGoodDate) ≤ 0 := by
  have h := nullRating_engine pdTest "" ratingFilters emptyDateRange reviewNullRating rfl
  refine ⟨h.2.1 2 rfl (by decide), (h.2.2 reviewGoodDate ?_).1⟩
  have hb : jsOrZero reviewGoodDate.rating = 8 := rfl
  rw [hb]
  norm_num
